import Mathlib

/-!
Verification of the event-detection and evidence-capture pipeline of the
timtamcam repository (src/timtamcam.py, src/slackbot.py), as a shallow
embedding in Lean.  Weights are modelled as exact rationals; the Python
`round(x, 2)` (round half to even) is modelled by `pyRound`/`round2`;
the cv2 stream, the scales and the Slack client are modelled as oracles
whose answers are explicit inputs of the embedded functions.
-/

namespace TimTamCam

/-- Constant `DELTA_WEIGHT = 10` (grams) from src/timtamcam.py line 31. -/
def DELTA_WEIGHT : ℚ := 10

/-- Constant `TIMTAM_WEIGHT = 18.3` (grams) from src/timtamcam.py line 32. -/
def TIMTAM_WEIGHT : ℚ := 183 / 10

/-- Python `round` to the nearest integer, half to even (banker's rounding),
modelled on exact rationals. -/
def pyRound (q : ℚ) : ℤ :=
  if q - ⌊q⌋ < 1 / 2 then ⌊q⌋
  else if (1 : ℚ) / 2 < q - ⌊q⌋ then ⌊q⌋ + 1
  else if 2 ∣ ⌊q⌋ then ⌊q⌋ else ⌊q⌋ + 1

/-- Python `round(q, 2)`: round to two decimal places, half to even. -/
def round2 (q : ℚ) : ℚ := (pyRound (q * 100) : ℚ) / 100

/-- One observation of the environment at the top of a monitor-loop tick:
the averaged scale reading `hx.get_weight(15)` and the wall clock
(`datetime.now().hour`, `datetime.now().weekday()`). -/
structure Tick where
  weight : ℚ
  hour : ℕ
  weekday : ℕ
deriving DecidableEq, Repr

/-- The suppression test of src/timtamcam.py line 207:
`hour >= 18 or hour <= 4 or weekday >= 5`. -/
def suppressed (hour weekday : ℕ) : Bool :=
  decide (18 ≤ hour) || decide (hour ≤ 4) || decide (5 ≤ weekday)

/-- The data passed to `alert(timtam_change, previous)` when the threshold
test at line 214 fires. -/
structure RemovalEvent where
  timtam_change : ℚ
  previous_weight : ℚ
deriving DecidableEq, Repr

/-- One pass of the body of `monitor_loop` (src/timtamcam.py lines 202-220)
on a successful scale read: given the running baseline `previous` and the
tick observation, return the new baseline together with the event passed to
`alert` on this pass, if any.
  * `previous = None`: fall through to `previous = weight`, no event;
  * suppressed hour/weekday: `previous = None; continue`, no event;
  * `round((previous - weight) / TIMTAM_WEIGHT, 2) >= 0.85`: call `alert`,
    then `previous = None; continue`;
  * otherwise fall through to `previous = weight`. -/
def monitorStep (previous : Option ℚ) (t : Tick) : Option ℚ × Option RemovalEvent :=
  match previous with
  | none => (some t.weight, none)
  | some prev =>
    if suppressed t.hour t.weekday then (none, none)
    else
      let timtam_change := round2 ((prev - t.weight) / TIMTAM_WEIGHT)
      if 85 / 100 ≤ timtam_change then (none, some ⟨timtam_change, prev⟩)
      else (some t.weight, none)

/-- Iterate `monitorStep` over a list of ticks, collecting the events
emitted along the way. -/
def monitorRun (s : Option ℚ) : List Tick → Option ℚ × List RemovalEvent
  | [] => (s, [])
  | t :: ts =>
    let r := monitorStep s t
    let rest := monitorRun r.1 ts
    (rest.1, r.2.toList ++ rest.2)

/-- Exception classes relevant to the `try/except` clauses of the program.
`sensorError` stands for any ordinary `Exception` raised by
`hx.get_weight` (an HX711 read failure); in Python, `KeyboardInterrupt`
and `SystemExit` derive from `BaseException` but not from `Exception`,
so a sensor failure can never be one of them. -/
inductive PyExc where
  | keyboardInterrupt
  | systemExit
  | sensorError
deriving DecidableEq, Repr

/-- The exception classes caught by the `except (KeyboardInterrupt,
SystemExit)` clause of `monitor_loop` (src/timtamcam.py line 222). -/
def caughtByMonitorLoop : PyExc → Bool
  | .keyboardInterrupt => true
  | .systemExit => true
  | .sensorError => false

/-- The outcome of `self.client.files_upload` inside `send_file`
(src/slackbot.py lines 37-49), as observed by the caller: success, or one
of the two failure classes `alert` distinguishes.  `send_file` logs a
failure and re-raises it (`raise`), so failures propagate to `alert`. -/
inductive DeliveryResult where
  | ok
  | slackApiError
  | requestException
deriving DecidableEq, Repr

/-- The oracle answers consumed by one call of `alert`
(src/timtamcam.py lines 119-145): whether each `record_gif` call would
succeed, whether `load_camera_url` would succeed, the fresh scale reading
`hx.get_weight(15)` taken at line 135, and the outcome of `send_file`. -/
structure AlertEnv where
  capture1 : Bool
  reload : Bool
  capture2 : Bool
  freshWeight : ℚ
  delivery : DeliveryResult
deriving DecidableEq, Repr

/-- How one call of `alert` terminates. -/
inductive AlertResult where
  | textOnlyCameraDisconnected
  | noNotification
  | filePosted
  | fileFailedLogged
  | exitedWithSystemExit
deriving DecidableEq, Repr

/-- Whether `alert` reaches line 135: the first `record_gif` succeeded, or
the recovery path (`load_camera_url` then `record_gif` again) succeeded. -/
def recordingOk (env : AlertEnv) : Bool :=
  env.capture1 || (env.reload && env.capture2)

/-- How many times `alert` calls `record_gif`: once at line 121; if that
raises, a second call at line 129 happens only when `load_camera_url`
(line 128) did not itself raise. -/
def captureAttempts (env : AlertEnv) : ℕ :=
  if env.capture1 then 1 else if env.reload then 2 else 1

/-- The body of `alert(num_timtams, previous_weight)` (src/timtamcam.py
lines 119-145).  `num_timtams` only appears inside the message text and is
omitted.  If both capture attempts fail (or the re-resolution fails), a
text-only "camera is disconnected" message is sent and `alert` returns.
Otherwise, if `previous_weight <= fresh + DELTA_WEIGHT`, `alert` returns
without sending anything.  Otherwise `send_file` is called: on
`SlackApiError` the error is logged and `alert` returns; on
`requests.exceptions.RequestException`, `alert` raises `SystemExit`. -/
def alert (previous_weight : ℚ) (env : AlertEnv) : AlertResult :=
  if !recordingOk env then .textOnlyCameraDisconnected
  else if previous_weight ≤ env.freshWeight + DELTA_WEIGHT then .noNotification
  else
    match env.delivery with
    | .ok => .filePosted
    | .slackApiError => .fileFailedLogged
    | .requestException => .exitedWithSystemExit

/-- The exception, if any, that a call of `alert` lets escape. -/
def alertRaises (previous_weight : ℚ) (env : AlertEnv) : Option PyExc :=
  match alert previous_weight env with
  | .exitedWithSystemExit => some .systemExit
  | _ => none

/-- The `try` body of one `monitor_loop` iteration (src/timtamcam.py lines
201-220): the scale read may raise; on success the detection logic of
`monitorStep` runs, and when it fires, `alert` runs and may itself raise.
The result is the new baseline and emitted event, or the escaping
exception. -/
def loopBody (previous : Option ℚ) (read : Except PyExc Tick) (env : AlertEnv) :
    Except PyExc (Option ℚ × Option RemovalEvent) :=
  match read with
  | .error e => .error e
  | .ok t =>
    let r := monitorStep previous t
    match r.2 with
    | none => .ok r
    | some ev =>
      match alertRaises ev.previous_weight env with
      | some exc => .error exc
      | none => .ok r

/-- What one `monitor_loop` iteration does with its body's outcome. -/
inductive TickOutcome where
  | continueLoop (previous : Option ℚ) (emitted : Option RemovalEvent)
  | loopReturns
  | uncaught (e : PyExc)
deriving DecidableEq, Repr

/-- The `try/except` of `monitor_loop` (src/timtamcam.py lines 201-225):
a normal body outcome continues the loop; `KeyboardInterrupt`/`SystemExit`
is logged, GPIO is cleaned up and the loop returns (ending the process);
any other exception is not caught and propagates out of `monitor_loop`. -/
def loopIteration (body : Except PyExc (Option ℚ × Option RemovalEvent)) : TickOutcome :=
  match body with
  | .ok r => .continueLoop r.1 r.2
  | .error e => if caughtByMonitorLoop e then .loopReturns else .uncaught e

/-- One answer of `cap.read()` (src/timtamcam.py line 160) together with
the value `cap.isOpened()` reports immediately after this read.  `ret` and
`isNone`/`size` model the returned pair; `openAfter` feeds both the
`camera_check` of this read (if it falls on a stride tick) and the next
evaluation of the `while` condition. -/
structure Frame where
  ret : Bool
  isNone : Bool
  size : ℕ
  openAfter : Bool
deriving DecidableEq, Repr

/-- The cv2 stream oracle for one `record_gif` call: the value of
`cap.isOpened()` right after `cv2.VideoCapture(url)`, the native rate
`int(cap.get(cv2.CAP_PROP_FPS))`, and the successive answers of
`cap.read()`.  Once `reads` is exhausted the stream behaves as closed:
a further read returns `(False, None)` with `isOpened()` false. -/
structure Cap where
  openAtStart : Bool
  fpsNative : ℕ
  reads : List Frame
deriving DecidableEq, Repr

/-- The test of `camera_check` (src/timtamcam.py lines 188-192):
`not cap.isOpened() or not ret or frame is None or frame.size == 0`.
When true, `camera_check` releases the handle and raises `RuntimeError`. -/
def camera_check (f : Frame) : Bool :=
  !f.openAfter || !f.ret || f.isNone || (f.size == 0)

/-- How the frame-reading `while` loop of `record_gif` can fail. -/
inductive CaptureErr where
  | cameraError
  | zeroDivision
deriving DecidableEq, Repr

/-- The decimation stride `stream_fps // fps` used at line 163 of
src/timtamcam.py.  There is no lower bound in the source. -/
def strideOf (fpsNative fps : ℕ) : ℕ := fpsNative / fps

/-- The `while` loop of `record_gif` (src/timtamcam.py lines 159-176).
The loop continues while `cap.isOpened()` and fewer than `target` frames
are accepted.  Each pass reads a frame and increments `frames`; the
expression `frames % (stream_fps // fps)` raises `ZeroDivisionError` when
the stride is 0; on a stride tick, `camera_check` may raise (after
releasing the handle), otherwise the frame is processed and appended.
Returns the number of accepted frames, or the error that escaped. -/
def captureLoop (target s : ℕ) : Bool → ℕ → ℕ → List Frame → Except CaptureErr ℕ
  | opened, frames, images, [] =>
    if !opened || target ≤ images then .ok images
    else if s == 0 then .error .zeroDivision
    else if (frames + 1) % s == 0 then .error .cameraError
    else .ok images
  | opened, frames, images, f :: rest =>
    if !opened || target ≤ images then .ok images
    else if s == 0 then .error .zeroDivision
    else if (frames + 1) % s == 0 then
      if camera_check f then .error .cameraError
      else captureLoop target s f.openAfter (frames + 1) (images + 1) rest
    else captureLoop target s f.openAfter (frames + 1) images rest

/-- How one `record_gif` call terminates. -/
inductive CaptureResult where
  | artifact (frameCount : ℕ)
  | cameraError
  | zeroDivision
  | encodeError
deriving DecidableEq, Repr

/-- A `record_gif` outcome together with whether `cap.release()` ran on
that path. -/
structure CaptureOutcome where
  result : CaptureResult
  released : Bool
deriving DecidableEq, Repr

/-- `record_gif(duration, fps)` (src/timtamcam.py lines 148-185).
`encodeFails` is the oracle for whether `imageio.mimsave`/`optimize`
raises (e.g. `mimsave` raises on an empty frame list).  `cap.release()`
is executed only by `camera_check` before raising, and at line 185 after
a successful encode; a `ZeroDivisionError` or an encoding exception
propagates without any release. -/
def record_gif (cap : Cap) (encodeFails : Bool) (duration fps : ℕ) : CaptureOutcome :=
  match captureLoop (duration * fps) (strideOf cap.fpsNative fps)
      cap.openAtStart 0 0 cap.reads with
  | .error .cameraError => ⟨.cameraError, true⟩
  | .error .zeroDivision => ⟨.zeroDivision, false⟩
  | .ok n => if encodeFails then ⟨.encodeError, false⟩ else ⟨.artifact n, true⟩

/-- Which `record_gif` outcomes have the handle released, per the source:
the final `cap.release()` runs only after a successful encode, and
`camera_check` releases before raising. -/
def releasedOn : CaptureResult → Bool
  | .artifact _ => true
  | .cameraError => true
  | .zeroDivision => false
  | .encodeError => false

/-! Helper lemmas. -/

/-- Rounding never overshoots the floor by more than one. -/
theorem pyRound_le_floor_add_one (q : ℚ) : pyRound q ≤ ⌊q⌋ + 1 := by
  unfold pyRound
  split
  · omega
  · split
    · omega
    · split <;> omega

/-- A nonpositive argument rounds, at two decimals, to at most 0.01,
in particular strictly below the 0.85 threshold. -/
theorem round2_lt_of_nonpos (q : ℚ) (h : q ≤ 0) : round2 q < 85 / 100 := by
  have h1 : pyRound (q * 100) ≤ ⌊q * 100⌋ + 1 := pyRound_le_floor_add_one _
  have h2 : ⌊q * 100⌋ ≤ 0 := by
    have : q * 100 ≤ 0 := mul_nonpos_of_nonpos_of_nonneg h (by norm_num)
    exact Int.floor_nonpos this
  have h3 : (pyRound (q * 100) : ℚ) ≤ 1 := by
    have : pyRound (q * 100) ≤ 1 := by omega
    exact_mod_cast this
  unfold round2
  linarith

/-- Rounding zero gives zero. -/
theorem round2_zero : round2 0 = 0 := by
  norm_num [round2, pyRound]

/-! Claim theorems. -/

/-- Claim C1, amended: for a baseline and a new sample during allowed
hours, the sample is absorbed as drift (it becomes the new baseline, no
event) exactly when `round(delta / unit_weight_grams, 2) < 0.85` — the
code rounds the ratio to two decimals before comparing, so raw ratios in
`[0.845, 0.85)` emit rather than drift; when the rounded ratio reaches
0.85 exactly one event is passed to `alert`, carrying
`estimated_units_removed = round(delta / unit, 2)`, which is strictly
positive; a nonpositive delta (weight increased or unchanged) never
emits. -/
theorem c1_rounded_threshold (prev : ℚ) (t : Tick)
    (hs : suppressed t.hour t.weekday = false) :
    (round2 ((prev - t.weight) / TIMTAM_WEIGHT) < 85 / 100 →
      monitorStep (some prev) t = (some t.weight, none))
    ∧ (85 / 100 ≤ round2 ((prev - t.weight) / TIMTAM_WEIGHT) →
      monitorStep (some prev) t =
        (none, some ⟨round2 ((prev - t.weight) / TIMTAM_WEIGHT), prev⟩)
      ∧ 0 < round2 ((prev - t.weight) / TIMTAM_WEIGHT))
    ∧ ((prev - t.weight) ≤ 0 → (monitorStep (some prev) t).2 = none) := by
  refine ⟨?_, ?_, ?_⟩
  · intro h
    simp [monitorStep, hs, not_le.mpr h]
  · intro h
    exact ⟨by simp [monitorStep, hs, h], lt_of_lt_of_le (by norm_num) h⟩
  · intro h
    have hq : (prev - t.weight) / TIMTAM_WEIGHT ≤ 0 :=
      div_nonpos_iff.mpr (Or.inr ⟨h, by norm_num [TIMTAM_WEIGHT]⟩)
    have := round2_lt_of_nonpos _ hq
    simp [monitorStep, hs, not_le.mpr this]

/-- Claim C1 witness: baseline 500g, sample 400g at noon on a Wednesday:
the rounded ratio 5.46 crosses the threshold, one strictly positive event
is emitted and the baseline is cleared. -/
theorem c1_rounded_threshold_witness :
    monitorStep (some 500) ⟨400, 12, 2⟩ =
      (none, some ⟨round2 ((500 - 400) / TIMTAM_WEIGHT), 500⟩)
    ∧ 0 < round2 ((500 - 400) / TIMTAM_WEIGHT) :=
  (c1_rounded_threshold 500 ⟨400, 12, 2⟩ (by decide)).2.1
    (by norm_num [round2, pyRound, TIMTAM_WEIGHT])

/-- Claim C1 is false as stated: baseline 500g, sample 484.5182g at noon
on a Wednesday gives delta / unit = 0.846 < 0.85, so the claim demands
drift absorption with no event; the code rounds first
(round(0.846, 2) = 0.85 ≥ 0.85) and emits an event. -/
theorem c1_counterexample :
    ((500 : ℚ) - 4845182 / 10000) / TIMTAM_WEIGHT < 85 / 100
    ∧ (monitorStep (some 500) ⟨4845182 / 10000, 12, 2⟩).2 ≠ none := by
  constructor
  · norm_num [TIMTAM_WEIGHT]
  · norm_num [monitorStep, suppressed, round2, pyRound, TIMTAM_WEIGHT]
    exact Option.some_ne_none _

/-- Claim C2, amended: a sample arriving during a suppressed window with a
baseline present never emits an event regardless of magnitude, and the
baseline is cleared (set to none, forcing re-acquisition from the next
sample) — it is not set to the suppressed sample itself. -/
theorem c2_suppressed_clears_baseline (prev : ℚ) (t : Tick)
    (h : suppressed t.hour t.weekday = true) :
    monitorStep (some prev) t = (none, none)
    ∧ (monitorStep (some prev) t).1 ≠ some t.weight := by
  simp [monitorStep, h]

/-- Claim C2 witness: a 100g drop observed at 20:00 on a Wednesday is
suppressed: no event, baseline cleared. -/
theorem c2_suppressed_clears_baseline_witness :
    monitorStep (some 500) ⟨400, 20, 2⟩ = (none, none)
    ∧ (monitorStep (some 500) ⟨400, 20, 2⟩).1 ≠ some (400 : ℚ) :=
  c2_suppressed_clears_baseline 500 ⟨400, 20, 2⟩ (by decide)

/-- Claim C2 is false as stated: at 20:00 (suppressed) with baseline 500g
and sample 400g, the new baseline is none, not the sample 400g the claim
requires. -/
theorem c2_counterexample :
    (monitorStep (some 500) ⟨400, 20, 2⟩).1 = none
    ∧ (monitorStep (some 500) ⟨400, 20, 2⟩).1 ≠ some (400 : ℚ)
    ∧ (monitorStep (some 500) ⟨400, 20, 2⟩).2 = none := by
  refine ⟨?_, ?_, ?_⟩ <;> simp [monitorStep, suppressed]

/-- Claim C8, confirmed: whenever the detector emits an event, the
baseline is cleared, and feeding the same lower weight twice afterwards
produces no further event: the first such sample only re-acquires the
baseline and the second gives a zero delta. -/
theorem c8_no_double_count (prev : ℚ) (t t1 t2 : Tick) (e : RemovalEvent)
    (h : (monitorStep (some prev) t).2 = some e) (hw : t1.weight = t2.weight) :
    (monitorStep (some prev) t).1 = none
    ∧ (monitorRun none [t1, t2]).2 = [] := by
  constructor
  · by_cases hs : suppressed t.hour t.weekday
    · simp [monitorStep, hs] at h
    · by_cases ht : (85 : ℚ) / 100 ≤ round2 ((prev - t.weight) / TIMTAM_WEIGHT)
      · simp [monitorStep, hs, ht]
      · simp [monitorStep, hs, ht] at h
  · by_cases hs2 : suppressed t2.hour t2.weekday
    · simp [monitorRun, monitorStep, hs2]
    · have hz : round2 ((t1.weight - t2.weight) / TIMTAM_WEIGHT) = 0 := by
        rw [hw, sub_self, zero_div, round2_zero]
      simp [monitorRun, monitorStep, hs2, hz]
      norm_num

/-- Claim C8 witness: after the 500g → 400g emission, feeding 400g twice
more (allowed hours) yields no further event. -/
theorem c8_no_double_count_witness :
    (monitorStep (some 500) ⟨400, 12, 2⟩).1 = none
    ∧ (monitorRun none [⟨400, 12, 2⟩, ⟨400, 12, 2⟩]).2 = [] :=
  c8_no_double_count 500 ⟨400, 12, 2⟩ ⟨400, 12, 2⟩ ⟨400, 12, 2⟩
    ⟨round2 ((500 - 400) / TIMTAM_WEIGHT), 500⟩
    (by norm_num [monitorStep, suppressed, round2, pyRound, TIMTAM_WEIGHT]) rfl

/-- Claim C3, amended: when a recording is obtained and the weight gate
passes, a `SlackApiError` delivery failure is logged and `alert` returns
without propagating it; but a `RequestException` delivery failure makes
`alert` raise `SystemExit`, which the monitor loop catches as a shutdown
request and returns — so that class of delivery failure does terminate the
monitoring process, which is then not an operator-requested shutdown. -/
theorem c3_delivery_failure_behaviour (p : ℚ) (env : AlertEnv)
    (hrec : recordingOk env = true)
    (hw : env.freshWeight + DELTA_WEIGHT < p) :
    (env.delivery = .slackApiError → alert p env = .fileFailedLogged)
    ∧ (env.delivery = .requestException → alert p env = .exitedWithSystemExit)
    ∧ loopIteration (.error .systemExit) = .loopReturns := by
  refine ⟨?_, ?_, rfl⟩ <;> intro hd <;> simp [alert, hrec, not_le.mpr hw, hd]

/-- Claim C3 witness: a rate-limit style `SlackApiError` while posting the
gif for a 501g → fresh 490g reading is logged and swallowed. -/
theorem c3_delivery_failure_behaviour_witness :
    alert 501 ⟨true, true, true, 490, .slackApiError⟩ = .fileFailedLogged :=
  (c3_delivery_failure_behaviour 501 ⟨true, true, true, 490, .slackApiError⟩
    rfl (by norm_num [DELTA_WEIGHT])).1 rfl

/-- Claim C3 is false as stated: with a successful recording and a real
weight drop (baseline 500g, fresh 480g), a `RequestException` delivery
failure raises `SystemExit` instead of being logged and swallowed, and the
surrounding monitor-loop iteration catches it and returns, ending the
monitoring process. -/
theorem c3_counterexample :
    alert 500 ⟨true, true, true, 480, .requestException⟩ = .exitedWithSystemExit
    ∧ loopIteration (loopBody (some 500) (.ok ⟨400, 12, 2⟩)
        ⟨true, true, true, 480, .requestException⟩) = .loopReturns := by
  constructor
  · norm_num [alert, recordingOk, DELTA_WEIGHT]
  · norm_num [loopIteration, loopBody, monitorStep, suppressed, round2, pyRound,
      TIMTAM_WEIGHT, alertRaises, alert, recordingOk, DELTA_WEIGHT, caughtByMonitorLoop]

/-- Claim C4, amended: after a failed first capture attempt, `alert` makes
at most one further capture attempt — exactly one when the camera address
re-resolution succeeds, and none when the re-resolution itself fails; if
the recovery path fails (re-resolution or second capture), a text-only
"camera is disconnected" alert is sent and `alert` returns; a third
capture attempt never happens. -/
theorem c4_one_shot_recovery (p : ℚ) (env : AlertEnv)
    (h : env.capture1 = false) :
    captureAttempts env ≤ 2
    ∧ (env.reload = true → captureAttempts env = 2)
    ∧ (env.reload = false → captureAttempts env = 1)
    ∧ (env.reload = false ∨ env.capture2 = false →
        alert p env = .textOnlyCameraDisconnected) := by
  rcases env with ⟨c1, rl, c2, fw, dl⟩
  simp only at h
  subst h
  refine ⟨?_, ?_, ?_, ?_⟩
  · cases rl <;> simp [captureAttempts]
  · intro h2; simp only at h2; subst h2; simp [captureAttempts]
  · intro h2; simp only at h2; subst h2; simp [captureAttempts]
  · intro h2
    rcases h2 with h2 | h2 <;> simp only at h2 <;> subst h2 <;>
      simp [alert, recordingOk]

/-- Claim C4 witness: first capture fails, re-resolution succeeds, second
capture fails: exactly two capture attempts in total and a text-only
alert. -/
theorem c4_one_shot_recovery_witness :
    captureAttempts ⟨false, true, false, 0, .ok⟩ = 2
    ∧ alert 0 ⟨false, true, false, 0, .ok⟩ = .textOnlyCameraDisconnected :=
  ⟨(c4_one_shot_recovery 0 ⟨false, true, false, 0, .ok⟩ rfl).2.1 rfl,
   (c4_one_shot_recovery 0 ⟨false, true, false, 0, .ok⟩ rfl).2.2.2 (Or.inr rfl)⟩

/-- Claim C4 is false as stated: when the first capture fails and the
re-resolution (`load_camera_url`) itself raises, no further capture
attempt is made (one total, not the claimed two), and the text-only alert
is sent directly. -/
theorem c4_counterexample :
    (⟨false, false, false, 0, .ok⟩ : AlertEnv).capture1 = false
    ∧ captureAttempts ⟨false, false, false, 0, .ok⟩ ≠ 2
    ∧ alert 0 ⟨false, false, false, 0, .ok⟩ = .textOnlyCameraDisconnected := by
  refine ⟨rfl, by decide, by simp [alert, recordingOk]⟩

/-- Claim C7, amended: an ordinary exception raised by the scale read
(`hx.get_weight`) is not caught by the monitor loop, whose only handler
is for `KeyboardInterrupt` and `SystemExit`: the failure is not logged,
the tick is not skipped — the exception propagates out of `monitor_loop`
and terminates it. -/
theorem c7_sensor_failure_uncaught (previous : Option ℚ) (env : AlertEnv) :
    loopIteration (loopBody previous (.error .sensorError) env)
      = .uncaught .sensorError
    ∧ caughtByMonitorLoop .sensorError = false :=
  ⟨rfl, rfl⟩

/-- Claim C7 is false as stated: on a tick whose sensor read fails with an
ordinary exception, the loop outcome is an uncaught propagating exception,
not a continuation with the baseline kept. -/
theorem c7_counterexample :
    loopIteration (loopBody (some 500) (.error .sensorError)
      ⟨true, true, true, 480, .ok⟩) = .uncaught .sensorError
    ∧ TickOutcome.uncaught .sensorError ≠ .continueLoop (some 500) none :=
  ⟨rfl, by simp⟩

/-- Claim C10, confirmed: once a recording has been obtained, `alert`
compares the pre-event baseline against a fresh scale reading plus
`DELTA_WEIGHT` (10g): it posts the evidence only when the baseline
exceeds the fresh reading by more than 10g, and otherwise returns without
sending any notification at all — a detected event can silently produce
no alert.  The text-only path is impossible once recording succeeded. -/
theorem c10_weight_gate (p : ℚ) (env : AlertEnv)
    (hrec : recordingOk env = true) :
    (alert p env = .noNotification ↔ p ≤ env.freshWeight + DELTA_WEIGHT)
    ∧ alert p env ≠ .textOnlyCameraDisconnected := by
  by_cases hle : p ≤ env.freshWeight + DELTA_WEIGHT
  · simp [alert, hrec, hle]
  · constructor
    · simp only [alert, hrec, Bool.not_true, Bool.false_eq_true, if_false, hle, if_neg]
      cases env.delivery <;> simp [hle]
    · simp only [alert, hrec, Bool.not_true, Bool.false_eq_true, if_false, hle, if_neg]
      cases env.delivery <;> simp [hle]

/-- Claim C10 witness: baseline 500g against a fresh reading of 495g
(difference 5g ≤ 10g) after a successful recording: no notification of
any kind is sent. -/
theorem c10_weight_gate_witness :
    alert 500 ⟨true, true, true, 495, .ok⟩ = .noNotification :=
  ((c10_weight_gate 500 ⟨true, true, true, 495, .ok⟩ rfl).1).mpr
    (by norm_num [DELTA_WEIGHT])

/-- The frame loop never accepts more than `target` frames: each append is
guarded by the loop condition `images < target`. -/
theorem captureLoop_le (target s : ℕ) (reads : List Frame) :
    ∀ (opened : Bool) (frames images n : ℕ), images ≤ target →
      captureLoop target s opened frames images reads = .ok n → n ≤ target := by
  induction reads with
  | nil =>
    intro opened frames images n him h
    unfold captureLoop at h
    split_ifs at h <;> injection h with h2 <;> omega
  | cons f rest ih =>
    intro opened frames images n him h
    unfold captureLoop at h
    split_ifs at h with h1 h2 h3 h4 <;> first
      | (injection h with h2; omega)
      | exact absurd h (by simp)
      | skip
    · exact ih f.openAfter (frames + 1) (images + 1) n (by simp at h1; omega) h
    · exact ih f.openAfter (frames + 1) images n him h

/-- Claim C5, amended: `record_gif` releases its stream handle on exactly
two exit paths — normal completion (the `cap.release()` after encoding)
and the corrupt-frame path (`camera_check` releases before raising).  An
exception during the frame-sampling step (the `ZeroDivisionError` of a
zero stride) or during encoding propagates without releasing the handle:
there is no `finally`-style guard in the source. -/
theorem c5_release_characterisation (cap : Cap) (e : Bool) (d f : ℕ) :
    (record_gif cap e d f).released
      = releasedOn (record_gif cap e d f).result := by
  unfold record_gif
  rcases h : captureLoop (d * f) (strideOf cap.fpsNative f)
      cap.openAtStart 0 0 cap.reads with err | n
  · cases err <;> simp [h, releasedOn]
  · cases e <;> simp [h, releasedOn]

/-- Claim C5 is false as stated: a stream that is not open at the start
yields zero accepted frames, the encoder raises on the empty frame list,
and the handle is not released on that exit path. -/
theorem c5_counterexample :
    record_gif ⟨false, 3, []⟩ true 4 3
      = ⟨.encodeError, false⟩ := by decide

/-- Claim C6, amended: a successfully returned artifact contains at most
`duration * fps` accepted frames — not always exactly that many: a stream
that reports closed at the loop condition ends the loop and the routine
silently encodes and returns whatever frames were accepted so far. -/
theorem c6_truncation_bound (cap : Cap) (e : Bool) (d f n : ℕ)
    (h : (record_gif cap e d f).result = .artifact n) : n ≤ d * f := by
  unfold record_gif at h
  rcases hc : captureLoop (d * f) (strideOf cap.fpsNative f)
      cap.openAtStart 0 0 cap.reads with err | m
  · rw [hc] at h; cases err <;> simp at h
  · rw [hc] at h
    cases e <;> simp at h
    exact h ▸ captureLoop_le (d * f) (strideOf cap.fpsNative f)
      cap.reads cap.openAtStart 0 0 m (Nat.zero_le _) hc

/-- Claim C6 witness: the truncated run below returns an artifact of 1
frame, within the bound 1 ≤ 4 * 3. -/
theorem c6_truncation_bound_witness :
    (record_gif ⟨true, 6, [⟨true, false, 1, true⟩, ⟨true, false, 1, true⟩,
      ⟨true, false, 1, false⟩]⟩ false 4 3).result = .artifact 1
    ∧ 1 ≤ 4 * 3 :=
  ⟨by decide,
   c6_truncation_bound ⟨true, 6, [⟨true, false, 1, true⟩, ⟨true, false, 1, true⟩,
     ⟨true, false, 1, false⟩]⟩ false 4 3 1 (by decide)⟩

/-- Claim C6 is false as stated: a 4s, 3fps capture (target 12 frames)
from a 6fps stream (stride 2) whose closed flag appears after the third
read exits the loop with one accepted frame and returns a truncated
one-frame artifact successfully, instead of failing hard. -/
theorem c6_counterexample :
    record_gif ⟨true, 6, [⟨true, false, 1, true⟩, ⟨true, false, 1, true⟩,
      ⟨true, false, 1, false⟩]⟩ false 4 3 = ⟨.artifact 1, true⟩
    ∧ 1 < 4 * 3 := by decide

/-- Claim C9, amended: the decimation stride is `stream_fps // fps` with
no lower bound; whenever it is 0 (native rate below the requested rate,
including a reported native rate of 0) and the loop body runs at all, the
first frame-sampling step raises `ZeroDivisionError`, which propagates
with the handle unreleased. -/
theorem c9_zero_stride (cap : Cap) (e : Bool) (d f : ℕ)
    (hs : strideOf cap.fpsNative f = 0) (ho : cap.openAtStart = true)
    (ht : 1 ≤ d * f) :
    record_gif cap e d f = ⟨.zeroDivision, false⟩ := by
  have hnt : ¬ d * f ≤ 0 := by omega
  unfold record_gif
  rw [hs, ho]
  cases cap.reads <;> simp [captureLoop, hnt]

/-- Claim C9 witness: a stream reporting native rate 0 with the camera
open: the capture fails with `ZeroDivisionError` and no release. -/
theorem c9_zero_stride_witness :
    record_gif ⟨true, 0, []⟩ false 4 3 = ⟨.zeroDivision, false⟩ :=
  c9_zero_stride ⟨true, 0, []⟩ false 4 3 (by decide) rfl (by decide)

/-- Claim C9 is false as stated: for native rate 0 and requested rate 3
the stride used is 0, which is less than the claimed minimum of 1, and
the frame-sampling step is not well defined — the capture aborts with a
division-by-zero error. -/
theorem c9_counterexample :
    strideOf 0 3 = 0
    ∧ ¬ 1 ≤ strideOf 0 3
    ∧ record_gif ⟨true, 0, [⟨true, false, 1, true⟩]⟩ false 4 3
        = ⟨.zeroDivision, false⟩ := by decide

end TimTamCam
